import Mathlib

/-!
Verification of the resource-lifecycle core of the `neritigen` rendering
backend (`ng_render`): the scoped resource guards (`guard.rs`), atomic
device-image construction (`image.rs`), memory-type selection (`util.rs`),
device/queue selection and the swapchain resurrection machine (`shared.rs`),
and the per-frame orchestrator (`renderer.rs`).

Native Vulkan handles are modelled as natural numbers (`0` plays the role of
`VK_NULL_HANDLE`).  Every fallible graphics-API call is driven by an explicit
environment value recording its outcome, and every run of an operation is
summarised by its result together with the ordered list of destroy events it
emitted, so that exactly-once destruction, unwind order and leak freedom are
statements about concrete traces.
-/

set_option maxRecDepth 8000

namespace Neritigen


/-- A native handle (image, view, memory, swapchain, ...).  `0` stands for
the API's null handle. -/

abbrev Handle := Nat

/-! ## Scoped resource guards (`guard.rs`)

`Guarded<T>` wraps a `ScopeGuard` whose strategy invokes `Guardable::drop`;
`take()` disarms the guard via `ScopeGuard::into_inner` and returns the raw
resource.  The `Guardable` impl for `(Vec<R>, C)` iterates the vector front to
back, dropping each element with a clone of the context. -/

/-- How a `Guarded` value is consumed: dropped at scope exit, or disarmed
via `take()`. -/

inductive GuardExit
  | dropped
  | taken
deriving DecidableEq

/-- A guard over a single resource together with its destruction context,
as produced by `guard_with` (the `define_guardable!` impls). -/

structure Guarded where
  resource : Handle
deriving DecidableEq

/-- Destroy events emitted when a single-resource guard is consumed:
`drop` calls the destroy operation once on the held handle; `take()`
disarms the guard so nothing is destroyed. -/

def Guarded.destroyTrace (g : Guarded) : GuardExit → List Handle
  | .dropped => [g.resource]
  | .taken => []

/-- `take()` on a single-resource guard: returns the raw resource and emits
no destroy event. -/

def Guarded.take (g : Guarded) : Handle × List Handle :=
  (g.resource, [])

/-- The drop loop of `Guardable for (Vec<R>, C)`: `for resource in resources`
destroys each element in the vector's iteration order (front to back). -/

def seqGuardDropTrace : List Handle → List Handle
  | [] => []
  | r :: rest => r :: seqGuardDropTrace rest

/-- A sequence guard, `Guarded<(Vec<R>, C)>`: holds the vector in push order
(`push` appends at the back). -/

structure SeqGuard where
  elems : List Handle
deriving DecidableEq

/-- `push` on the guarded vector appends the new element at the back. -/

def SeqGuard.push (g : SeqGuard) (h : Handle) : SeqGuard :=
  ⟨g.elems ++ [h]⟩

/-- A sequence of `push` calls, first element pushed first. -/

def SeqGuard.pushAll (g : SeqGuard) : List Handle → SeqGuard
  | [] => g
  | h :: rest => SeqGuard.pushAll (g.push h) rest

/-- Dropping a sequence guard runs the `(Vec<R>, C)` drop loop. -/

def SeqGuard.dropTrace (g : SeqGuard) : List Handle :=
  seqGuardDropTrace g.elems

/-- `take()` on a sequence guard returns the vector and destroys nothing. -/

def SeqGuard.take (g : SeqGuard) : List Handle × List Handle :=
  (g.elems, [])

/-! ## Memory-type selection (`util.rs`, `select_memory_type`) -/

/-- One entry of the physical device's memory-type table
(`vk::MemoryType`); property flags are a bit mask. -/

structure MemoryType where
  propertyFlags : Nat
deriving DecidableEq

/-- `vk::PhysicalDeviceMemoryProperties`, already restricted to
`memory_types[..memory_type_count]`. -/

structure MemoryProperties where
  memoryTypes : List MemoryType
deriving DecidableEq

/-- `vk::MemoryRequirements`. -/

structure MemoryRequirements where
  size : Nat
  memoryTypeBits : Nat
deriving DecidableEq

/-- The `enumerate().find(..)` loop of `select_memory_type`: walk the table
carrying the running index, returning the first index whose bit is set in
`memoryTypeBits` and whose property flags contain `requiredFlags`. -/

def selectMemoryTypeFrom (memoryTypeBits requiredFlags : Nat) :
    List MemoryType → Nat → Option Nat
  | [], _ => none
  | mt :: rest, index =>
    if (1 <<< index) &&& memoryTypeBits ≠ 0 ∧
        mt.propertyFlags &&& requiredFlags = requiredFlags then
      some index
    else
      selectMemoryTypeFrom memoryTypeBits requiredFlags rest (index + 1)

/-- `util::select_memory_type`. -/

def select_memory_type (memoryProperties : MemoryProperties)
    (memoryRequirements : MemoryRequirements) (requiredFlags : Nat) : Option Nat :=
  selectMemoryTypeFrom memoryRequirements.memoryTypeBits requiredFlags
    memoryProperties.memoryTypes 0

/-- Index `i` of the table is acceptable for the given requirements and
required flags: its bit is set in the requirements' type bit mask and its
property flags are a superset of the required flags. -/

def acceptableMemoryType (memoryProperties : MemoryProperties)
    (memoryRequirements : MemoryRequirements) (requiredFlags i : Nat) : Prop :=
  ∃ mt, memoryProperties.memoryTypes.get? i = some mt ∧
    (1 <<< i) &&& memoryRequirements.memoryTypeBits ≠ 0 ∧
    mt.propertyFlags &&& requiredFlags = requiredFlags

/-! ## Atomic device-image construction (`image.rs`, `Image::new`)

`Image::new` runs: `create_image` → `get_image_memory_requirements` →
`select_memory_type` (caller closure) → `allocate_memory` →
`bind_image_memory` → `create_image_view`, guarding each created handle, and
on success `take`s the three handles into an `Image` record guarded with the
device.  The run of one call is summarised by its result, the handles the API
handed out, and the ordered destroy events (guards drop in reverse
declaration order when an early `?`-return unwinds the scope). -/

/-- Environment fixing the outcome of each fallible step of one `Image::new`
call: `none`/`false` means that step fails. -/

structure ImageNewEnv where
  imageHandle : Option Handle
  memoryTypeOk : Bool
  memoryHandle : Option Handle
  bindOk : Bool
  viewHandle : Option Handle
deriving DecidableEq

/-- The `Image` struct: format, image, memory, resolution, view. -/

structure ImageRec where
  format : Nat
  image : Handle
  memory : Handle
  resolution : Nat × Nat × Nat
  view : Handle
deriving DecidableEq

/-- Result of `Image::new`: outer Vulkan error (`Err` via `?`), selector
error (`Ok(Err(e))`), or success (`Ok(Ok(guarded image keyed to the
device))`). -/

inductive ImageNewResult
  | vkErr
  | selectErr
  | ok (img : ImageRec)
deriving DecidableEq

/-- Summary of one `Image::new` run. -/

structure ImageNewRun where
  result : ImageNewResult
  created : List Handle
  destroyed : List Handle
deriving DecidableEq

/-- One run of `Image::new`.  Guards live in declaration order
`image`, `memory`, `view`; an early return drops the live guards in reverse
declaration order. -/

def imageNew (env : ImageNewEnv) (format : Nat) (extent : Nat × Nat × Nat) :
    ImageNewRun :=
  match env.imageHandle with
  | none => ⟨.vkErr, [], []⟩
  | some image =>
    if env.memoryTypeOk then
      match env.memoryHandle with
      | none => ⟨.vkErr, [image], [image]⟩
      | some memory =>
        if env.bindOk then
          match env.viewHandle with
          | none => ⟨.vkErr, [image, memory], [memory, image]⟩
          | some view =>
            ⟨.ok ⟨format, image, memory, extent, view⟩,
              [image, memory, view], []⟩
        else ⟨.vkErr, [image, memory], [memory, image]⟩
    else ⟨.selectErr, [image], [image]⟩

/-- The destroy order of `Image::destroy_with`: view, image, memory. -/

def imageDropTrace (img : ImageRec) : List Handle :=
  [img.view, img.image, img.memory]

/-! ## Physical-device and queue-family selection (`shared.rs`)

`select_physical_device_and_queue_families` walks the enumerated devices; for
each it computes the first graphics-capable family via `position`, then scans
the families for surface support, and at the first surface-supporting family
executes `return Ok(graphics_queue.map(..))` — leaving the whole search even
when that device has no graphics family.  The surface-support query for a
family index is embedded as the `present` field of the family. -/

/-- One queue family of a physical device: whether its queue flags contain
GRAPHICS, and whether `get_physical_device_surface_support` holds for its
index. -/

structure QueueFamily where
  graphics : Bool
  present : Bool
deriving DecidableEq

/-- A physical device with its queue-family table. -/

structure PhysicalDevice where
  families : List QueueFamily
deriving DecidableEq

/-- `Iterator::position`-style search: first index (counting from `i`)
whose family satisfies the test. -/

def firstIdxFrom (p : QueueFamily → Bool) : List QueueFamily → Nat → Option Nat
  | [], _ => none
  | f :: rest, i => if p f then some i else firstIdxFrom p rest (i + 1)

/-- `queue_families.iter().position(|info| info.queue_flags.contains(GRAPHICS))`. -/

def firstGraphicsFamily (d : PhysicalDevice) : Option Nat :=
  firstIdxFrom (fun f => f.graphics) d.families 0

/-- Index of the first family for which the surface-support query answers
true (the point where the inner loop returns). -/

def firstPresentFamily (d : PhysicalDevice) : Option Nat :=
  firstIdxFrom (fun f => f.present) d.families 0

/-- The device loop of `select_physical_device_and_queue_families`. -/

def selectPhysicalDeviceAux : List PhysicalDevice → Nat → Option (Nat × Nat × Nat)
  | [], _ => none
  | d :: rest, devIndex =>
    match firstPresentFamily d with
    | some presentQueue =>
      (firstGraphicsFamily d).map fun graphicsQueue =>
        (devIndex, graphicsQueue, presentQueue)
    | none => selectPhysicalDeviceAux rest (devIndex + 1)

/-- `SharedStem::select_physical_device_and_queue_families`: returns the
chosen (device index, graphics family, present family), or `none`. -/

def select_physical_device_and_queue_families
    (devs : List PhysicalDevice) : Option (Nat × Nat × Nat) :=
  selectPhysicalDeviceAux devs 0

/-- The typed policy error of `SharedStem` construction. -/

inductive StemError
  | noAcceptableDevice
deriving DecidableEq

/-- The `ok_or(SharedStemError::NoAcceptableDeviceError)` step of
`create_device_and_queues`. -/

def create_device_and_queues
    (devs : List PhysicalDevice) : Except StemError (Nat × Nat × Nat) :=
  match select_physical_device_and_queue_families devs with
  | some t => .ok t
  | none => .error .noAcceptableDevice

/-! ## RenderTargetSet construction and swapchain resurrection (`shared.rs`)

`SharedFrond::new_with_swapchain(stem, &mut swapchain)` receives the
caller's swapchain slot by mutable reference.  It checks the drawable area
before any graphics-API call, selects a surface format, then assigns
`*swapchain = create_swapchain(.., old_swapchain = *swapchain)` — the Vulkan
call retires the old swapchain (the replace-target of `SwapchainCreateInfo`)
but the application remains responsible for destroying the retired handle.
Afterwards it creates one view per swapchain image (a sequence guard) and
five auxiliary device images (diffuse, normal, depth_stencil, shadow, light).
Failure after the assignment leaves the slot holding the newly created
swapchain; the slot itself is never destroyed here (the caller owns it).
Debug-labelling (`set_name`) is treated as infallible. -/

/-- The `SharedFrondError` variants. -/

inductive FrondError
  | vkErr
  | noAcceptableSurfaceFormat
  | noAcceptableMemoryType
  | noSurfaceArea
deriving DecidableEq

/-- Environment fixing the outcome of each fallible step of one
`new_with_swapchain` run.  `surfaceFormat = none` is a Vulkan error in the
format query, `some none` means no acceptable format, `some (some f)` the
chosen format.  `swapchainImages` pairs each returned swapchain image with
the outcome of its `create_image_view` call. -/

structure FrondEnv where
  windowResolution : Nat × Nat
  surfaceFormat : Option (Option Nat)
  newSwapchain : Option Handle
  swapchainImages : Option (List (Option Handle))
  diffuse : ImageNewEnv
  normal : ImageNewEnv
  depthStencil : ImageNewEnv
  shadow : ImageNewEnv
  light : ImageNewEnv
deriving DecidableEq

/-- Destroying a swapchain handle: `destroy_swapchain` on the null handle is
a no-op, so no destroy event is recorded for handle `0`. -/

def destroySwapchainTrace (h : Handle) : List Handle :=
  if h = 0 then [] else [h]

/-- The view-creation loop of `create_swapchain_image_views`: views collected
so far live in a sequence guard, so a failing `create_image_view` drops the
collected views in iteration order and returns the Vulkan error. -/

def createViewsLoop : List (Option Handle) → List Handle →
    Except (List Handle) (List Handle)
  | [], acc => .ok acc
  | none :: _, acc => .error (seqGuardDropTrace acc)
  | some v :: rest, acc => createViewsLoop rest (acc ++ [v])

/-- The data of a live `SharedFrond`. -/

structure FrondData where
  stemId : Nat
  swapchain : Handle
  swapchainFormat : Nat
  resolution : Nat × Nat
  swapchainImageViews : List Handle
  diffuse : ImageRec
  normal : ImageRec
  depthStencil : ImageRec
  shadow : ImageRec
  light : ImageRec
deriving DecidableEq

instance {ε α : Type} [DecidableEq ε] [DecidableEq α] :
    DecidableEq (Except ε α) := fun a b =>
  match a, b with
  | .ok x, .ok y =>
    if h : x = y then isTrue (by rw [h]) else isFalse (by simp [h])
  | .error x, .error y =>
    if h : x = y then isTrue (by rw [h]) else isFalse (by simp [h])
  | .ok _, .error _ => isFalse (by simp)
  | .error _, .ok _ => isFalse (by simp)

/-- Summary of one `new_with_swapchain` run: its result, the final contents
of the caller's swapchain slot, the ordered destroy events, and the number
of graphics-API calls issued. -/

structure FrondRun where
  result : Except FrondError FrondData
  slot : Handle
  destroyed : List Handle
  apiCalls : Nat
deriving DecidableEq

/-- `SharedFrond::create_image` wraps `Image::new` with device-local memory
selection: the selector error becomes `NoAcceptableMeoryType`, a Vulkan
error propagates. -/

def frondCreateImage (env : ImageNewEnv) (format : Nat)
    (resolution : Nat × Nat) : ImageNewRun :=
  imageNew env format (resolution.1, resolution.2, 1)

/-- Format codes used for the auxiliary images, distinct stand-ins for the
`vk::Format` constants. -/

def FORMAT_R8G8B8A8_UNORM : Nat := 37

def FORMAT_D24_UNORM_S8_UINT : Nat := 129

def FORMAT_R16G16B16A16_SFLOAT : Nat := 97

/-- Unwinds the guards of already completed auxiliary images in reverse
declaration order (each image drop destroys view, image, memory). -/

def auxUnwind (completed : List ImageRec) : List Handle :=
  (completed.reverse.map imageDropTrace).flatten

/-- One run of `SharedFrond::new_with_swapchain`, with the caller's slot
initially holding `slot` (the previous swapchain, or `0` for null). -/

def new_with_swapchain (stemId : Nat) (env : FrondEnv) (slot : Handle) :
    FrondRun :=
  if env.windowResolution.1 = 0 ∨ env.windowResolution.2 = 0 then
    ⟨.error .noSurfaceArea, slot, [], 0⟩
  else
    match env.surfaceFormat with
    | none => ⟨.error .vkErr, slot, [], 1⟩
    | some none => ⟨.error .noAcceptableSurfaceFormat, slot, [], 1⟩
    | some (some format) =>
      match env.newSwapchain with
      | none => ⟨.error .vkErr, slot, [], 2⟩
      | some newSwapchain =>
        match env.swapchainImages with
        | none => ⟨.error .vkErr, newSwapchain, [], 3⟩
        | some imageResults =>
          match createViewsLoop imageResults [] with
          | .error dropped =>
            ⟨.error .vkErr, newSwapchain, dropped, 4⟩
          | .ok views =>
            let diffuseRun := frondCreateImage env.diffuse
              FORMAT_R8G8B8A8_UNORM env.windowResolution
            match diffuseRun.result with
            | .vkErr => ⟨.error .vkErr, newSwapchain,
                diffuseRun.destroyed ++ seqGuardDropTrace views, 5⟩
            | .selectErr => ⟨.error .noAcceptableMemoryType, newSwapchain,
                diffuseRun.destroyed ++ seqGuardDropTrace views, 5⟩
            | .ok diffuseImg =>
              let normalRun := frondCreateImage env.normal
                FORMAT_R8G8B8A8_UNORM env.windowResolution
              match normalRun.result with
              | .vkErr => ⟨.error .vkErr, newSwapchain,
                  normalRun.destroyed ++ auxUnwind [diffuseImg] ++
                    seqGuardDropTrace views, 6⟩
              | .selectErr => ⟨.error .noAcceptableMemoryType, newSwapchain,
                  normalRun.destroyed ++ auxUnwind [diffuseImg] ++
                    seqGuardDropTrace views, 6⟩
              | .ok normalImg =>
                let depthRun := frondCreateImage env.depthStencil
                  FORMAT_D24_UNORM_S8_UINT env.windowResolution
                match depthRun.result with
                | .vkErr => ⟨.error .vkErr, newSwapchain,
                    depthRun.destroyed ++ auxUnwind [diffuseImg, normalImg] ++
                      seqGuardDropTrace views, 7⟩
                | .selectErr => ⟨.error .noAcceptableMemoryType, newSwapchain,
                    depthRun.destroyed ++ auxUnwind [diffuseImg, normalImg] ++
                      seqGuardDropTrace views, 7⟩
                | .ok depthImg =>
                  let shadowRun := frondCreateImage env.shadow
                    FORMAT_D24_UNORM_S8_UINT (1024, 1024)
                  match shadowRun.result with
                  | .vkErr => ⟨.error .vkErr, newSwapchain,
                      shadowRun.destroyed ++
                        auxUnwind [diffuseImg, normalImg, depthImg] ++
                        seqGuardDropTrace views, 8⟩
                  | .selectErr => ⟨.error .noAcceptableMemoryType, newSwapchain,
                      shadowRun.destroyed ++
                        auxUnwind [diffuseImg, normalImg, depthImg] ++
                        seqGuardDropTrace views, 8⟩
                  | .ok shadowImg =>
                    let lightRun := frondCreateImage env.light
                      FORMAT_R16G16B16A16_SFLOAT env.windowResolution
                    match lightRun.result with
                    | .vkErr => ⟨.error .vkErr, newSwapchain,
                        lightRun.destroyed ++
                          auxUnwind [diffuseImg, normalImg, depthImg, shadowImg] ++
                          seqGuardDropTrace views, 9⟩
                    | .selectErr => ⟨.error .noAcceptableMemoryType, newSwapchain,
                        lightRun.destroyed ++
                          auxUnwind [diffuseImg, normalImg, depthImg, shadowImg] ++
                          seqGuardDropTrace views, 9⟩
                    | .ok lightImg =>
                      ⟨.ok ⟨stemId, newSwapchain, format, env.windowResolution,
                          views, diffuseImg, normalImg, depthImg, shadowImg,
                          lightImg⟩,
                        0, [], 9⟩

/-- The retired residue of a frond: the shared stem reference and the bare
swapchain handle (`SharedFrondSwapchain`). -/

structure RetiredSwapchain where
  stemId : Nat
  swapchain : Handle
deriving DecidableEq

/-- `SharedFrondSwapchain::resurrect`: runs `new_with_swapchain` on its own
swapchain slot; on failure the (possibly updated) slot travels back inside
the returned `SharedFrondSwapchain`, on success the consumed `self` drops a
nulled slot.  The second component is the list of destroy events. -/

def resurrect (r : RetiredSwapchain) (env : FrondEnv) :
    Except (RetiredSwapchain × FrondError) FrondData × List Handle :=
  let run := new_with_swapchain r.stemId env r.swapchain
  match run.result with
  | .ok d => (.ok d, run.destroyed ++ destroySwapchainTrace run.slot)
  | .error e => (.error (⟨r.stemId, run.slot⟩, e), run.destroyed)

/-- `SharedFrond::new`: a null slot under a guard; the guard destroys
whatever the slot holds when `new` returns (a no-op for the null handle). -/

def sharedFrondNew (stemId : Nat) (env : FrondEnv) :
    Except FrondError FrondData × List Handle :=
  let run := new_with_swapchain stemId env 0
  match run.result with
  | .ok d => (.ok d, run.destroyed ++ destroySwapchainTrace run.slot)
  | .error e => (.error e, run.destroyed ++ destroySwapchainTrace run.slot)

/-! ## Per-frame orchestration (`renderer.rs`)

`Renderer` holds `stem_and_frond : Option<RendererStemAndFrond>` where the
frond slot is `Result<RendererFrond, SharedFrondSwapchain>`.  `rebuild`
takes the pair out, retires a live frond whose stored resolution diverges
from the drawable area, attempts resurrection via `or_else`, re-inserts the
pair, and only then propagates the error.  `draw` maps a
`FrondCreationError(NoSurfaceArea)` from `rebuild` to `Ok(false)`, runs the
frame, and on `ERROR_DEVICE_LOST` clears `stem_and_frond`.  The excluded
render-pass collaborators (geometry/lighting/tonemapping stems and fronds)
are modelled as infallible, and the orchestrator is modelled as the sole
holder of the shared references, so `take_swapchain` completes. -/

/-- `SharedStem` teardown-relevant state; `stemId` is the identity used by
`assert_is`. -/

structure StemData where
  stemId : Nat
  fullscreenVertShaderModule : Handle
  presentationFence : Handle
  imageAcquiredSemaphore : Handle
  renderCompleteSemaphore : Handle
  commandPool : Handle
  device : Handle
deriving DecidableEq

/-- `SharedStem::drop` destroy order: shader module, fence, the two
semaphores, command pool, device. -/

def stemDropTrace (s : StemData) : List Handle :=
  [s.fullscreenVertShaderModule, s.presentationFence, s.imageAcquiredSemaphore,
    s.renderCompleteSemaphore, s.commandPool, s.device]

/-- `SharedFrond::drop` destroy order: shadow, normal, light, diffuse,
depth_stencil (each view, image, memory), the swapchain image views in
order, then the swapchain. -/

def frondDropTrace (d : FrondData) : List Handle :=
  imageDropTrace d.shadow ++ imageDropTrace d.normal ++
    imageDropTrace d.light ++ imageDropTrace d.diffuse ++
    imageDropTrace d.depthStencil ++ d.swapchainImageViews ++
    destroySwapchainTrace d.swapchain

/-- `SharedFrond::take_swapchain` splits a live frond into the retired
residue and drops the resolution-dependent rest: the consumed frond is
dropped with a nulled swapchain slot. -/

def retireFrond (d : FrondData) : RetiredSwapchain × List Handle :=
  (⟨d.stemId, d.swapchain⟩, frondDropTrace {d with swapchain := 0})

/-- The `stem_and_frond` pair: the stem and
`Result<RendererFrond, SharedFrondSwapchain>` (`.ok` live frond,
`.error` retired residue). -/

structure StemAndFrond where
  stem : StemData
  frond : Except RetiredSwapchain FrondData
deriving DecidableEq

/-- `Renderer` state: `None` is the NoDevice state. -/

structure RendererState where
  stemAndFrond : Option StemAndFrond
deriving DecidableEq

/-- Outcome of the Vulkan work of one `RendererFrond::draw` call:
presented (with the suboptimal hint from acquire/present), the
distinguished device-lost error, or another Vulkan error. -/

inductive DrawAttempt
  | presented (suboptimal : Bool)
  | deviceLost
  | otherVkErr
deriving DecidableEq

/-- Environment for one `Renderer::draw` call. -/

structure RendererEnv where
  newStem : Option StemData
  frond : FrondEnv
  drawAttempt : DrawAttempt
deriving DecidableEq

/-- `RendererError`, restricted to the variants the lifecycle logic
distinguishes. -/

inductive RendererError
  | vkDeviceLost
  | vkOther
  | stemCreation
  | frondCreation (e : FrondError)
deriving DecidableEq

/-- `Renderer::rebuild`: returns the new state, the rebuild outcome, and the
destroy events.  In the fresh-construction branch a frond failure
propagates with `?` before any insert, dropping the just-created stem. -/

def rebuildStep (st : RendererState) (env : RendererEnv) :
    RendererState × Except RendererError FrondData × List Handle :=
  match st.stemAndFrond with
  | none =>
    match env.newStem with
    | none => (⟨none⟩, .error .stemCreation, [])
    | some stem =>
      match sharedFrondNew stem.stemId env.frond with
      | (.error e, ev) =>
        (⟨none⟩, .error (.frondCreation e), ev ++ stemDropTrace stem)
      | (.ok d, ev) => (⟨some ⟨stem, .ok d⟩⟩, .ok d, ev)
  | some saf =>
    let retired : Except RetiredSwapchain FrondData × List Handle :=
      match saf.frond with
      | .ok d =>
        if d.resolution ≠ env.frond.windowResolution then
          (.error (retireFrond d).1, (retireFrond d).2)
        else (.ok d, [])
      | .error r => (.error r, [])
    match retired with
    | (.ok d, ev) => (⟨some ⟨saf.stem, .ok d⟩⟩, .ok d, ev)
    | (.error r, ev) =>
      match resurrect r env.frond with
      | (.ok d, ev2) => (⟨some ⟨saf.stem, .ok d⟩⟩, .ok d, ev ++ ev2)
      | (.error (r2, e), ev2) =>
        (⟨some ⟨saf.stem, .error r2⟩⟩, .error (.frondCreation e), ev ++ ev2)

/-- `Renderer::draw`: `NoSurfaceArea` from `rebuild` becomes `Ok(false)`
("skipped"); a presented frame returns `Ok(!suboptimal)`;
`ERROR_DEVICE_LOST` triggers `lose_device` (dropping frond then stem);
other Vulkan errors propagate with the state intact. -/

def drawStep (st : RendererState) (env : RendererEnv) :
    RendererState × Except RendererError Bool × List Handle :=
  match rebuildStep st env with
  | (st2, .error (.frondCreation .noSurfaceArea), ev) => (st2, .ok false, ev)
  | (st2, .error e, ev) => (st2, .error e, ev)
  | (st2, .ok _, ev) =>
    match env.drawAttempt with
    | .presented suboptimal => (st2, .ok (!suboptimal), ev)
    | .deviceLost =>
      match st2.stemAndFrond with
      | some saf =>
        (⟨none⟩, .error .vkDeviceLost,
          ev ++ (match saf.frond with
                 | .ok d => frondDropTrace d
                 | .error r => destroySwapchainTrace r.swapchain) ++
            stemDropTrace saf.stem)
      | none => (⟨none⟩, .error .vkDeviceLost, ev)
    | .otherVkErr => (st2, .error .vkOther, ev)

/-- A sequence of `draw` calls: final state, per-call results, and the
concatenated destroy events. -/

def drawLoop (st : RendererState) :
    List RendererEnv →
      RendererState × List (Except RendererError Bool) × List Handle
  | [] => (st, [], [])
  | env :: rest =>
    let step := drawStep st env
    let tail := drawLoop step.1 rest
    (tail.1, step.2.1 :: tail.2.1, step.2.2 ++ tail.2.2)

/-! ## Shared-ownership discipline of frond teardown (`renderer.rs`)

`RendererFrond::take_swapchain` drops its three pass-frond `Arc`s and then
`Arc::try_unwrap`s the shared frond — panicking when the unwrap fails.  A
pass frond is deallocated (releasing its own `Arc<SharedFrond>`) only if no
external reference keeps it alive.  The cleanup closure of
`RendererFrond::resurrect` instead calls `Arc::try_unwrap(shared.clone())`
while `shared` itself is still captured, so the strong count at the check is
the external count plus two. -/

/-- External (non-orchestrator) strong references: to each pass frond, and
directly to the `SharedFrond`. -/

structure FrondSharing where
  geometryExt : Nat
  lightingExt : Nat
  tonemappingExt : Nat
  sharedExt : Nat
deriving DecidableEq

/-- Strong count of the `Arc<SharedFrond>` after `take_swapchain` drops the
orchestrator's pass-frond references: its own reference, direct external
references, and one per pass frond kept alive externally. -/

def sharedFrondRefsAfterPassDrop (s : FrondSharing) : Nat :=
  1 + s.sharedExt + (if s.geometryExt = 0 then 0 else 1) +
    (if s.lightingExt = 0 then 0 else 1) +
    (if s.tonemappingExt = 0 then 0 else 1)

/-- Outcome of an `Arc::try_unwrap`-guarded teardown: the retired residue,
or the `panic!` branch. -/

inductive TakeOutcome
  | retired (r : RetiredSwapchain)
  | panicked
deriving DecidableEq

/-- `RendererFrond::take_swapchain`: unwraps after dropping the pass
fronds; succeeds exactly when the strong count is one. -/

def takeSwapchainOutcome (s : FrondSharing) (d : FrondData) : TakeOutcome :=
  if sharedFrondRefsAfterPassDrop s = 1 then .retired ⟨d.stemId, d.swapchain⟩
  else .panicked

/-- The cleanup closure of `RendererFrond::resurrect`:
`Arc::try_unwrap(shared.clone())` runs with `shared` still captured, so the
count it sees is the external count plus the captured reference plus the
fresh clone. -/

def resurrectCleanupOutcome (s : FrondSharing) (d : FrondData) : TakeOutcome :=
  if s.sharedExt + 2 = 1 then .retired ⟨d.stemId, d.swapchain⟩
  else .panicked

/-! ## Handle provenance helpers

Freshness side conditions for theorems about handles never being destroyed:
the destroy events of a `new_with_swapchain` run only ever mention view
handles and auxiliary-image handles taken from the environment. -/

/-- The handles an `Image::new` run can create or destroy. -/

def ImageNewEnv.handles (e : ImageNewEnv) : List Handle :=
  e.imageHandle.toList ++ e.memoryHandle.toList ++ e.viewHandle.toList

/-- The handles a `new_with_swapchain` run can destroy: swapchain image
views and auxiliary-image handles. -/

def FrondEnv.destroyable (env : FrondEnv) : List Handle :=
  (env.swapchainImages.getD []).filterMap id ++
    env.diffuse.handles ++ env.normal.handles ++
    env.depthStencil.handles ++ env.shadow.handles ++ env.light.handles

/-! ## Concrete sample data for witnesses and counterexamples -/

/-- An auxiliary-image environment in which every step fails (never reached
in the runs that use it). -/

def failAux : ImageNewEnv := ⟨none, false, none, false, none⟩

/-- A zero-area environment: the drawable area is (0, 0). -/

def envZeroFrond : FrondEnv :=
  ⟨(0, 0), none, none, none, failAux, failAux, failAux, failAux, failAux⟩

/-- An environment where swapchain creation succeeds (handle 8) and the
first swapchain-image view creation then fails. -/

def envC3 : FrondEnv :=
  ⟨(800, 600), some (some 44), some 8, some [none],
    failAux, failAux, failAux, failAux, failAux⟩

/-- A fully successful construction environment (new swapchain handle 8,
distinct handles for views and auxiliary images). -/

def envC4 : FrondEnv :=
  ⟨(800, 600), some (some 44), some 8, some [some 21, some 22],
    ⟨some 50, true, some 51, true, some 52⟩,
    ⟨some 53, true, some 54, true, some 55⟩,
    ⟨some 56, true, some 57, true, some 58⟩,
    ⟨some 59, true, some 60, true, some 61⟩,
    ⟨some 62, true, some 63, true, some 64⟩⟩

/-- The frond produced by a successful run of `new_with_swapchain` under
`envC4` with stem identity 1. -/

def frondA : FrondData :=
  ⟨1, 8, 44, (800, 600), [21, 22],
    ⟨FORMAT_R8G8B8A8_UNORM, 50, 51, (800, 600, 1), 52⟩,
    ⟨FORMAT_R8G8B8A8_UNORM, 53, 54, (800, 600, 1), 55⟩,
    ⟨FORMAT_D24_UNORM_S8_UINT, 56, 57, (800, 600, 1), 58⟩,
    ⟨FORMAT_D24_UNORM_S8_UINT, 59, 60, (1024, 1024, 1), 61⟩,
    ⟨FORMAT_R16G16B16A16_SFLOAT, 62, 63, (800, 600, 1), 64⟩⟩

/-- A concrete device context with handles disjoint from `frondA`. -/

def stemA : StemData := ⟨1, 2, 3, 4, 5, 6, 9⟩

/-- A second device context (fresh identity and handles), used for the
post-device-loss rebuild. -/

def stemB : StemData := ⟨2, 90, 91, 92, 93, 94, 95⟩

/-- A successful construction environment with handles disjoint from
`stemA`, `frondA` and `stemB`. -/

def envC8b : FrondEnv :=
  ⟨(800, 600), some (some 44), some 70, some [some 71, some 72],
    ⟨some 73, true, some 74, true, some 75⟩,
    ⟨some 76, true, some 77, true, some 78⟩,
    ⟨some 79, true, some 80, true, some 81⟩,
    ⟨some 82, true, some 83, true, some 84⟩,
    ⟨some 85, true, some 86, true, some 87⟩⟩

/-- The frond produced by a successful run of `new_with_swapchain` under
`envC8b` with stem identity 2. -/

def frondB : FrondData :=
  ⟨2, 70, 44, (800, 600), [71, 72],
    ⟨FORMAT_R8G8B8A8_UNORM, 73, 74, (800, 600, 1), 75⟩,
    ⟨FORMAT_R8G8B8A8_UNORM, 76, 77, (800, 600, 1), 78⟩,
    ⟨FORMAT_D24_UNORM_S8_UINT, 79, 80, (800, 600, 1), 81⟩,
    ⟨FORMAT_D24_UNORM_S8_UINT, 82, 83, (1024, 1024, 1), 84⟩,
    ⟨FORMAT_R16G16B16A16_SFLOAT, 85, 86, (800, 600, 1), 87⟩⟩

/-- A per-frame environment whose frame submission reports device loss. -/

def envLostA : RendererEnv := ⟨none, envC4, .deviceLost⟩

/-- A per-frame environment that rebuilds from scratch (stem `stemB`, frond
from `envC8b`) and presents optimally. -/

def envFreshB : RendererEnv := ⟨some stemB, envC8b, .presented false⟩

/-- A per-frame environment whose acquire/present reports suboptimal. -/

def envSubA : RendererEnv := ⟨none, envC4, .presented true⟩

/-- A per-frame environment that presents optimally. -/

def envOptA : RendererEnv := ⟨none, envC4, .presented false⟩

/-- Per-frame environments with a zero drawable area. -/

def envZeroR : RendererEnv := ⟨none, envZeroFrond, .presented false⟩

/-- A second zero-area per-frame environment (different draw outcome, never
reached). -/

def envZeroR2 : RendererEnv := ⟨none, envZeroFrond, .deviceLost⟩

theorem seqGuardDropTrace_eq (l : List Handle) : seqGuardDropTrace l = l := by
  induction l with
  | nil => rfl
  | cons r rest ih => simp [seqGuardDropTrace, ih]

theorem SeqGuard.pushAll_elems (g : SeqGuard) (hs : List Handle) :
    (g.pushAll hs).elems = g.elems ++ hs := by
  induction hs generalizing g with
  | nil => simp [SeqGuard.pushAll]
  | cons h rest ih => simp [SeqGuard.pushAll, ih, SeqGuard.push]

theorem selectMemoryTypeFrom_none_iff (bits flags : Nat) (l : List MemoryType)
    (start : Nat) :
    selectMemoryTypeFrom bits flags l start = none ↔
      ∀ j mt, l.get? j = some mt →
        ¬((1 <<< (start + j)) &&& bits ≠ 0 ∧
          mt.propertyFlags &&& flags = flags) := by
  induction l generalizing start with
  | nil => simp [selectMemoryTypeFrom]
  | cons mt rest ih =>
    by_cases hhead : (1 <<< start) &&& bits ≠ 0 ∧ mt.propertyFlags &&& flags = flags
    · simp only [selectMemoryTypeFrom, if_pos hhead]
      constructor
      · intro hcontr
        exact absurd hcontr (by simp)
      · intro hall
        exact absurd hhead (by simpa using hall 0 mt rfl)
    · simp only [selectMemoryTypeFrom, if_neg hhead]
      rw [ih (start + 1)]
      constructor
      · intro hall j mtj hj
        match j with
        | 0 =>
          simp only [List.get?] at hj
          cases hj
          simpa using hhead
        | Nat.succ k =>
          have hthis := hall k mtj (by simpa using hj)
          have heq : start + 1 + k = start + (k + 1) := by omega
          rw [heq] at hthis
          exact hthis
      · intro hall j mtj hj
        have hthis := hall (j + 1) mtj (by simpa using hj)
        have heq : start + (j + 1) = start + 1 + j := by omega
        rw [heq] at hthis
        exact hthis

theorem selectMemoryTypeFrom_some (bits flags : Nat) (l : List MemoryType)
    (start i : Nat) (h : selectMemoryTypeFrom bits flags l start = some i) :
    start ≤ i ∧
    (∃ mt, l.get? (i - start) = some mt ∧
      (1 <<< i) &&& bits ≠ 0 ∧ mt.propertyFlags &&& flags = flags) ∧
    (∀ j mt, j < i - start → l.get? j = some mt →
      ¬((1 <<< (start + j)) &&& bits ≠ 0 ∧
        mt.propertyFlags &&& flags = flags)) := by
  induction l generalizing start with
  | nil => simp [selectMemoryTypeFrom] at h
  | cons mt rest ih =>
    by_cases hhead : (1 <<< start) &&& bits ≠ 0 ∧ mt.propertyFlags &&& flags = flags
    · simp only [selectMemoryTypeFrom, if_pos hhead] at h
      cases h
      refine ⟨Nat.le_refl _, ⟨mt, by simp, hhead.1, hhead.2⟩, ?_⟩
      intro j mtj hj
      omega
    · simp only [selectMemoryTypeFrom, if_neg hhead] at h
      obtain ⟨hle, ⟨mtw, hget, hbit, hflags⟩, hmin⟩ := ih (start + 1) h
      have hstart : start ≤ i := by omega
      refine ⟨hstart, ⟨mtw, ?_, hbit, hflags⟩, ?_⟩
      · have : i - start = (i - (start + 1)) + 1 := by omega
        rw [this]
        simpa using hget
      · intro j mtj hj hget2
        match j with
        | 0 =>
          simp only [List.get?] at hget2
          cases hget2
          simpa using hhead
        | Nat.succ k =>
          have hk : k < i - (start + 1) := by omega
          have hthis := hmin k mtj hk (by simpa using hget2)
          have heq : start + 1 + k = start + (k + 1) := by omega
          rw [heq] at hthis
          exact hthis

theorem firstIdxFrom_none_iff (p : QueueFamily → Bool) (l : List QueueFamily)
    (i : Nat) :
    firstIdxFrom p l i = none ↔ ∀ f ∈ l, p f = false := by
  induction l generalizing i with
  | nil => simp [firstIdxFrom]
  | cons f rest ih =>
    by_cases hf : p f
    · simp [firstIdxFrom, hf]
    · simp only [firstIdxFrom, if_neg hf, ih (i + 1)]
      constructor
      · intro hall g hg
        rcases List.mem_cons.mp hg with hgf | hgrest
        · subst hgf
          exact Bool.eq_false_iff.mpr hf
        · exact hall g hgrest
      · intro hall g hg
        exact hall g (List.mem_cons_of_mem f hg)

theorem firstPresentFamily_isSome_of_any (d : PhysicalDevice)
    (h : d.families.any (fun f => f.present) = true) :
    ∃ k, firstPresentFamily d = some k := by
  rcases hcase : firstPresentFamily d with _ | k
  · exfalso
    have hall := (firstIdxFrom_none_iff (fun f => f.present) d.families 0).mp hcase
    rcases List.any_eq_true.mp h with ⟨f, hf, hp⟩
    rw [hall f hf] at hp
    exact Bool.false_ne_true hp
  · exact ⟨k, rfl⟩

theorem firstPresentFamily_none_of_not_any (d : PhysicalDevice)
    (h : d.families.any (fun f => f.present) = false) :
    firstPresentFamily d = none := by
  apply (firstIdxFrom_none_iff (fun f => f.present) d.families 0).mpr
  intro f hf
  by_contra hcon
  have hp : f.present = true := by
    cases hpf : f.present
    · exact absurd hpf hcon
    · rfl
  have : d.families.any (fun f => f.present) = true :=
    List.any_eq_true.mpr ⟨f, hf, hp⟩
  rw [h] at this
  exact Bool.false_ne_true this

theorem selectPhysicalDeviceAux_none
    (devs : List PhysicalDevice) (n : Nat)
    (h : ∀ d ∈ devs, d.families.any (fun f => f.present) = false) :
    selectPhysicalDeviceAux devs n = none := by
  induction devs generalizing n with
  | nil => rfl
  | cons d rest ih =>
    have hd := firstPresentFamily_none_of_not_any d (h d (List.mem_cons_self d rest))
    simp only [selectPhysicalDeviceAux, hd]
    exact ih (n + 1) (fun x hx => h x (List.mem_cons_of_mem d hx))

theorem selectPhysicalDeviceAux_first_present
    (devs : List PhysicalDevice) (n i : Nat) (d : PhysicalDevice)
    (hget : devs.get? i = some d)
    (hpres : d.families.any (fun f => f.present) = true)
    (hmin : ∀ j dj, j < i → devs.get? j = some dj →
      dj.families.any (fun f => f.present) = false) :
    selectPhysicalDeviceAux devs n =
      (firstGraphicsFamily d).map fun g =>
        (n + i, g, (firstPresentFamily d).getD 0) := by
  induction devs generalizing n i with
  | nil => simp at hget
  | cons hd rest ih =>
    match i with
    | 0 =>
      simp only [List.get?] at hget
      cases hget
      obtain ⟨k, hk⟩ := firstPresentFamily_isSome_of_any d hpres
      simp [selectPhysicalDeviceAux, hk]
    | Nat.succ i2 =>
      have hhd : hd.families.any (fun f => f.present) = false :=
        hmin 0 hd (Nat.succ_pos i2) rfl
      have hfp := firstPresentFamily_none_of_not_any hd hhd
      simp only [selectPhysicalDeviceAux, hfp]
      have hrec := ih (n + 1) i2 (by simpa using hget)
        (fun j dj hj hgj => hmin (j + 1) dj (by omega) (by simpa using hgj))
      rw [hrec]
      have heq : n + 1 + i2 = n + (i2 + 1) := by omega
      rw [heq]

theorem imageNew_destroyed_subset (e : ImageNewEnv) (format : Nat)
    (extent : Nat × Nat × Nat) :
    ∀ h ∈ (imageNew e format extent).destroyed, h ∈ e.handles := by
  obtain ⟨ih, mok, mh, bok, vh⟩ := e
  cases ih <;> cases mok <;> cases mh <;> cases bok <;> cases vh <;>
    simp_all [imageNew, ImageNewEnv.handles, Option.toList]

theorem imageNew_ok_handles (e : ImageNewEnv) (format : Nat)
    (extent : Nat × Nat × Nat) (img : ImageRec)
    (h : (imageNew e format extent).result = .ok img) :
    img.image ∈ e.handles ∧ img.memory ∈ e.handles ∧ img.view ∈ e.handles := by
  obtain ⟨ih, mok, mh, bok, vh⟩ := e
  cases ih <;> cases mok <;> cases mh <;> cases bok <;> cases vh <;>
    (simp_all [imageNew, ImageNewEnv.handles, Option.toList];
      try (obtain ⟨rfl⟩ := h.symm; simp))

theorem createViewsLoop_error_subset (results : List (Option Handle))
    (acc dropped : List Handle)
    (h : createViewsLoop results acc = .error dropped) :
    ∀ x ∈ dropped, x ∈ acc ∨ x ∈ results.filterMap id := by
  induction results generalizing acc with
  | nil => simp [createViewsLoop] at h
  | cons r rest ih =>
    match r with
    | none =>
      simp only [createViewsLoop] at h
      cases h
      intro x hx
      rw [seqGuardDropTrace_eq] at hx
      exact Or.inl hx
    | some v =>
      simp only [createViewsLoop] at h
      intro x hx
      rcases ih (acc ++ [v]) h x hx with hacc | hrest
      · rcases List.mem_append.mp hacc with hl | hr
        · exact Or.inl hl
        · simp at hr
          subst hr
          exact Or.inr (by simp)
      · exact Or.inr (by simp [hrest])

theorem createViewsLoop_ok_subset (results : List (Option Handle))
    (acc views : List Handle)
    (h : createViewsLoop results acc = .ok views) :
    ∀ x ∈ views, x ∈ acc ∨ x ∈ results.filterMap id := by
  induction results generalizing acc with
  | nil =>
    simp only [createViewsLoop] at h
    cases h
    intro x hx
    exact Or.inl hx
  | cons r rest ih =>
    match r with
    | none => simp [createViewsLoop] at h
    | some v =>
      simp only [createViewsLoop] at h
      intro x hx
      rcases ih (acc ++ [v]) h x hx with hacc | hrest
      · rcases List.mem_append.mp hacc with hl | hr
        · exact Or.inl hl
        · simp at hr
          subst hr
          exact Or.inr (by simp)
      · exact Or.inr (by simp [hrest])

theorem auxUnwind_mem (completed : List ImageRec) (h : Handle)
    (hmem : h ∈ auxUnwind completed) :
    ∃ img ∈ completed, h ∈ imageDropTrace img := by
  simp only [auxUnwind, List.mem_flatten] at hmem
  obtain ⟨l, hl, hhl⟩ := hmem
  simp only [List.mem_map] at hl
  obtain ⟨img, himg, rfl⟩ := hl
  exact ⟨img, by simpa using himg, hhl⟩

theorem completed_image_subset (destroyableL handlesL : List Handle)
    (img : ImageRec) (hv : img.view ∈ handlesL) (hi : img.image ∈ handlesL)
    (hm : img.memory ∈ handlesL) (hsub : ∀ x ∈ handlesL, x ∈ destroyableL) :
    ∀ x ∈ imageDropTrace img, x ∈ destroyableL := by
  intro x hx
  simp only [imageDropTrace, List.mem_cons, List.not_mem_nil, or_false] at hx
  rcases hx with rfl | rfl | rfl
  exacts [hsub _ hv, hsub _ hi, hsub _ hm]

theorem auxBranch_subset (destroyableL : List Handle) (auxRun : ImageNewRun)
    (completed : List ImageRec) (views : List Handle)
    (hrun : ∀ x ∈ auxRun.destroyed, x ∈ destroyableL)
    (hcomp : ∀ img ∈ completed, ∀ x ∈ imageDropTrace img, x ∈ destroyableL)
    (hviews : ∀ x ∈ views, x ∈ destroyableL) :
    ∀ x ∈ auxRun.destroyed ++ auxUnwind completed ++ seqGuardDropTrace views,
      x ∈ destroyableL := by
  intro x hx
  rw [seqGuardDropTrace_eq] at hx
  rcases List.mem_append.mp hx with hx1 | hx2
  · rcases List.mem_append.mp hx1 with ha | hb
    · exact hrun x ha
    · obtain ⟨img, himg, hit⟩ := auxUnwind_mem _ _ hb
      exact hcomp img himg x hit
  · exact hviews x hx2

theorem destroyable_mem_views (env : FrondEnv)
    (simgsList : List (Option Handle))
    (hs : env.swapchainImages = some simgsList) :
    ∀ x ∈ simgsList.filterMap id, x ∈ env.destroyable := by
  intro x hx
  simp only [FrondEnv.destroyable, hs, Option.getD_some, List.mem_append]
  tauto

theorem destroyable_mem_diffuse (env : FrondEnv) :
    ∀ x ∈ env.diffuse.handles, x ∈ env.destroyable := by
  intro x hx
  simp only [FrondEnv.destroyable, List.mem_append]
  tauto

theorem destroyable_mem_normal (env : FrondEnv) :
    ∀ x ∈ env.normal.handles, x ∈ env.destroyable := by
  intro x hx
  simp only [FrondEnv.destroyable, List.mem_append]
  tauto

theorem destroyable_mem_depthStencil (env : FrondEnv) :
    ∀ x ∈ env.depthStencil.handles, x ∈ env.destroyable := by
  intro x hx
  simp only [FrondEnv.destroyable, List.mem_append]
  tauto

theorem destroyable_mem_shadow (env : FrondEnv) :
    ∀ x ∈ env.shadow.handles, x ∈ env.destroyable := by
  intro x hx
  simp only [FrondEnv.destroyable, List.mem_append]
  tauto

theorem destroyable_mem_light (env : FrondEnv) :
    ∀ x ∈ env.light.handles, x ∈ env.destroyable := by
  intro x hx
  simp only [FrondEnv.destroyable, List.mem_append]
  tauto

theorem new_with_swapchain_destroyed_subset (stemId : Nat) (env : FrondEnv)
    (slot : Handle) :
    ∀ h ∈ (new_with_swapchain stemId env slot).destroyed, h ∈ env.destroyable := by
  intro h hmem
  unfold new_with_swapchain at hmem
  by_cases hz : env.windowResolution.1 = 0 ∨ env.windowResolution.2 = 0
  · rw [if_pos hz] at hmem
    simp at hmem
  rw [if_neg hz] at hmem
  rcases hsf : env.surfaceFormat with _ | osf
  · simp only [hsf] at hmem
    simp at hmem
  rcases osf with _ | fmt
  · simp only [hsf] at hmem
    simp at hmem
  simp only [hsf] at hmem
  rcases hns : env.newSwapchain with _ | nsw
  · simp only [hns] at hmem
    simp at hmem
  simp only [hns] at hmem
  rcases hsi : env.swapchainImages with _ | simgsList
  · simp only [hsi] at hmem
    simp at hmem
  simp only [hsi] at hmem
  rcases hv : createViewsLoop simgsList [] with dropped | views
  · simp only [hv] at hmem
    rcases createViewsLoop_error_subset simgsList [] dropped hv h hmem
        with h0 | hfm
    · simp at h0
    · exact destroyable_mem_views env simgsList hsi h hfm
  simp only [hv] at hmem
  have hviewsSub : ∀ x ∈ views, x ∈ env.destroyable := by
    intro x hx
    rcases createViewsLoop_ok_subset simgsList [] views hv x hx with h0 | h1
    · simp at h0
    · exact destroyable_mem_views env simgsList hsi x h1
  rcases hd1 : (frondCreateImage env.diffuse FORMAT_R8G8B8A8_UNORM
      env.windowResolution).result with _ | _ | img1
  · simp only [hd1] at hmem
    rcases List.mem_append.mp hmem with ha | hb
    · exact destroyable_mem_diffuse env h (imageNew_destroyed_subset _ _ _ h ha)
    · rw [seqGuardDropTrace_eq] at hb
      exact hviewsSub h hb
  · simp only [hd1] at hmem
    rcases List.mem_append.mp hmem with ha | hb
    · exact destroyable_mem_diffuse env h (imageNew_destroyed_subset _ _ _ h ha)
    · rw [seqGuardDropTrace_eq] at hb
      exact hviewsSub h hb
  have hk1 := imageNew_ok_handles env.diffuse FORMAT_R8G8B8A8_UNORM
    (env.windowResolution.1, env.windowResolution.2, 1) img1 hd1
  have hcomp1 : ∀ x ∈ imageDropTrace img1, x ∈ env.destroyable :=
    completed_image_subset _ _ img1 hk1.2.2 hk1.1 hk1.2.1
      (destroyable_mem_diffuse env)
  simp only [hd1] at hmem
  rcases hd2 : (frondCreateImage env.normal FORMAT_R8G8B8A8_UNORM
      env.windowResolution).result with _ | _ | img2
  · simp only [hd2] at hmem
    refine auxBranch_subset env.destroyable _ [img1] views ?_ ?_ hviewsSub h hmem
    · intro x hx
      exact destroyable_mem_normal env x (imageNew_destroyed_subset _ _ _ x hx)
    · intro img himg x hx
      simp only [List.mem_singleton] at himg
      subst himg
      exact hcomp1 x hx
  · simp only [hd2] at hmem
    refine auxBranch_subset env.destroyable _ [img1] views ?_ ?_ hviewsSub h hmem
    · intro x hx
      exact destroyable_mem_normal env x (imageNew_destroyed_subset _ _ _ x hx)
    · intro img himg x hx
      simp only [List.mem_singleton] at himg
      subst himg
      exact hcomp1 x hx
  have hk2 := imageNew_ok_handles env.normal FORMAT_R8G8B8A8_UNORM
    (env.windowResolution.1, env.windowResolution.2, 1) img2 hd2
  have hcomp2 : ∀ x ∈ imageDropTrace img2, x ∈ env.destroyable :=
    completed_image_subset _ _ img2 hk2.2.2 hk2.1 hk2.2.1
      (destroyable_mem_normal env)
  simp only [hd2] at hmem
  rcases hd3 : (frondCreateImage env.depthStencil FORMAT_D24_UNORM_S8_UINT
      env.windowResolution).result with _ | _ | img3
  · simp only [hd3] at hmem
    refine auxBranch_subset env.destroyable _ [img1, img2] views ?_ ?_ hviewsSub h hmem
    · intro x hx
      exact destroyable_mem_depthStencil env x (imageNew_destroyed_subset _ _ _ x hx)
    · intro img himg x hx
      rcases List.mem_cons.mp himg with rfl | himg2
      · exact hcomp1 x hx
      · simp only [List.mem_singleton] at himg2
        subst himg2
        exact hcomp2 x hx
  · simp only [hd3] at hmem
    refine auxBranch_subset env.destroyable _ [img1, img2] views ?_ ?_ hviewsSub h hmem
    · intro x hx
      exact destroyable_mem_depthStencil env x (imageNew_destroyed_subset _ _ _ x hx)
    · intro img himg x hx
      rcases List.mem_cons.mp himg with rfl | himg2
      · exact hcomp1 x hx
      · simp only [List.mem_singleton] at himg2
        subst himg2
        exact hcomp2 x hx
  have hk3 := imageNew_ok_handles env.depthStencil FORMAT_D24_UNORM_S8_UINT
    (env.windowResolution.1, env.windowResolution.2, 1) img3 hd3
  have hcomp3 : ∀ x ∈ imageDropTrace img3, x ∈ env.destroyable :=
    completed_image_subset _ _ img3 hk3.2.2 hk3.1 hk3.2.1
      (destroyable_mem_depthStencil env)
  simp only [hd3] at hmem
  rcases hd4 : (frondCreateImage env.shadow FORMAT_D24_UNORM_S8_UINT
      (1024, 1024)).result with _ | _ | img4
  · simp only [hd4] at hmem
    refine auxBranch_subset env.destroyable _ [img1, img2, img3] views ?_ ?_
      hviewsSub h hmem
    · intro x hx
      exact destroyable_mem_shadow env x (imageNew_destroyed_subset _ _ _ x hx)
    · intro img himg x hx
      rcases List.mem_cons.mp himg with rfl | himg2
      · exact hcomp1 x hx
      rcases List.mem_cons.mp himg2 with rfl | himg3
      · exact hcomp2 x hx
      simp only [List.mem_singleton] at himg3
      subst himg3
      exact hcomp3 x hx
  · simp only [hd4] at hmem
    refine auxBranch_subset env.destroyable _ [img1, img2, img3] views ?_ ?_
      hviewsSub h hmem
    · intro x hx
      exact destroyable_mem_shadow env x (imageNew_destroyed_subset _ _ _ x hx)
    · intro img himg x hx
      rcases List.mem_cons.mp himg with rfl | himg2
      · exact hcomp1 x hx
      rcases List.mem_cons.mp himg2 with rfl | himg3
      · exact hcomp2 x hx
      simp only [List.mem_singleton] at himg3
      subst himg3
      exact hcomp3 x hx
  have hk4 := imageNew_ok_handles env.shadow FORMAT_D24_UNORM_S8_UINT
    (1024, 1024, 1) img4 hd4
  have hcomp4 : ∀ x ∈ imageDropTrace img4, x ∈ env.destroyable :=
    completed_image_subset _ _ img4 hk4.2.2 hk4.1 hk4.2.1
      (destroyable_mem_shadow env)
  simp only [hd4] at hmem
  rcases hd5 : (frondCreateImage env.light FORMAT_R16G16B16A16_SFLOAT
      env.windowResolution).result with _ | _ | img5
  · simp only [hd5] at hmem
    refine auxBranch_subset env.destroyable _ [img1, img2, img3, img4] views ?_ ?_
      hviewsSub h hmem
    · intro x hx
      exact destroyable_mem_light env x (imageNew_destroyed_subset _ _ _ x hx)
    · intro img himg x hx
      rcases List.mem_cons.mp himg with rfl | himg2
      · exact hcomp1 x hx
      rcases List.mem_cons.mp himg2 with rfl | himg3
      · exact hcomp2 x hx
      rcases List.mem_cons.mp himg3 with rfl | himg4
      · exact hcomp3 x hx
      simp only [List.mem_singleton] at himg4
      subst himg4
      exact hcomp4 x hx
  · simp only [hd5] at hmem
    refine auxBranch_subset env.destroyable _ [img1, img2, img3, img4] views ?_ ?_
      hviewsSub h hmem
    · intro x hx
      exact destroyable_mem_light env x (imageNew_destroyed_subset _ _ _ x hx)
    · intro img himg x hx
      rcases List.mem_cons.mp himg with rfl | himg2
      · exact hcomp1 x hx
      rcases List.mem_cons.mp himg2 with rfl | himg3
      · exact hcomp2 x hx
      rcases List.mem_cons.mp himg3 with rfl | himg4
      · exact hcomp3 x hx
      simp only [List.mem_singleton] at himg4
      subst himg4
      exact hcomp4 x hx
  · simp only [hd5] at hmem
    simp at hmem

theorem new_with_swapchain_slot_early (stemId : Nat) (env : FrondEnv)
    (slot : Handle)
    (hcase : (env.windowResolution.1 = 0 ∨ env.windowResolution.2 = 0) ∨
      env.surfaceFormat = none ∨ env.surfaceFormat = some none ∨
      env.newSwapchain = none) :
    (new_with_swapchain stemId env slot).slot = slot := by
  unfold new_with_swapchain
  by_cases hz : env.windowResolution.1 = 0 ∨ env.windowResolution.2 = 0
  · rw [if_pos hz]
  rw [if_neg hz]
  rcases hcase with hzz | hsf | hsf | hns
  · exact absurd hzz hz
  · rw [hsf]
  · rw [hsf]
  · rcases hsf2 : env.surfaceFormat with _ | osf
    · simp
    rcases osf with _ | fmt
    · simp
    rw [hns]

theorem new_with_swapchain_slot_late (stemId : Nat) (env : FrondEnv)
    (slot hnew fmt : Nat)
    (hz : ¬(env.windowResolution.1 = 0 ∨ env.windowResolution.2 = 0))
    (hsf : env.surfaceFormat = some (some fmt))
    (hns : env.newSwapchain = some hnew)
    (herr : ∀ d, (new_with_swapchain stemId env slot).result ≠ .ok d) :
    (new_with_swapchain stemId env slot).slot = hnew := by
  unfold new_with_swapchain at herr ⊢
  rw [if_neg hz] at herr ⊢
  simp only [hsf, hns] at herr ⊢
  rcases hsi : env.swapchainImages with _ | simgsList
  · simp [hsi]
  simp only [hsi] at herr ⊢
  rcases hv : createViewsLoop simgsList [] with dropped | views
  · simp [hv]
  simp only [hv] at herr ⊢
  rcases hd1 : (frondCreateImage env.diffuse FORMAT_R8G8B8A8_UNORM
      env.windowResolution).result with _ | _ | img1
  · simp [hd1]
  · simp [hd1]
  simp only [hd1] at herr ⊢
  rcases hd2 : (frondCreateImage env.normal FORMAT_R8G8B8A8_UNORM
      env.windowResolution).result with _ | _ | img2
  · simp [hd2]
  · simp [hd2]
  simp only [hd2] at herr ⊢
  rcases hd3 : (frondCreateImage env.depthStencil FORMAT_D24_UNORM_S8_UINT
      env.windowResolution).result with _ | _ | img3
  · simp [hd3]
  · simp [hd3]
  simp only [hd3] at herr ⊢
  rcases hd4 : (frondCreateImage env.shadow FORMAT_D24_UNORM_S8_UINT
      (1024, 1024)).result with _ | _ | img4
  · simp [hd4]
  · simp [hd4]
  simp only [hd4] at herr ⊢
  rcases hd5 : (frondCreateImage env.light FORMAT_R16G16B16A16_SFLOAT
      env.windowResolution).result with _ | _ | img5
  · simp [hd5]
  · simp [hd5]
  exfalso
  simp only [hd5] at herr
  exact herr _ rfl

theorem drawStep_zero_area (stem : StemData) (r : RetiredSwapchain)
    (e : RendererEnv)
    (hz : e.frond.windowResolution.1 = 0 ∨ e.frond.windowResolution.2 = 0) :
    drawStep ⟨some ⟨stem, .error r⟩⟩ e = (⟨some ⟨stem, .error r⟩⟩, .ok false, []) := by
  have hrun : new_with_swapchain r.stemId e.frond r.swapchain =
      ⟨.error .noSurfaceArea, r.swapchain, [], 0⟩ := by
    unfold new_with_swapchain
    rw [if_pos hz]
  have hres : resurrect r e.frond =
      (.error (⟨r.stemId, r.swapchain⟩, .noSurfaceArea), []) := by
    unfold resurrect
    rw [hrun]
  have hreb : rebuildStep ⟨some ⟨stem, .error r⟩⟩ e =
      (⟨some ⟨stem, .error r⟩⟩, .error (.frondCreation .noSurfaceArea), []) := by
    simp [rebuildStep, hres]
  simp [drawStep, hreb]

theorem drawLoop_zero_area (stem : StemData) (r : RetiredSwapchain) :
    ∀ envs : List RendererEnv,
      (∀ e ∈ envs,
        e.frond.windowResolution.1 = 0 ∨ e.frond.windowResolution.2 = 0) →
      drawLoop ⟨some ⟨stem, .error r⟩⟩ envs =
        (⟨some ⟨stem, .error r⟩⟩, envs.map (fun _ => Except.ok false), [])
  | [], _ => by simp [drawLoop]
  | e :: rest, hall => by
    have hstep := drawStep_zero_area stem r e (hall e (List.mem_cons_self e rest))
    have ih := drawLoop_zero_area stem r rest
      (fun x hx => hall x (List.mem_cons_of_mem e hx))
    simp [drawLoop, hstep, ih]

theorem rebuildStep_preserves_stem (stem : StemData)
    (f : Except RetiredSwapchain FrondData) (e : RendererEnv) :
    ∃ f2, (rebuildStep ⟨some ⟨stem, f⟩⟩ e).1 = ⟨some ⟨stem, f2⟩⟩ := by
  rcases f with r | d
  · rcases hres : resurrect r e.frond with ⟨resE, ev2⟩
    rcases resE with ⟨r2, e2⟩ | d2
    · exact ⟨.error r2, by simp [rebuildStep, hres]⟩
    · exact ⟨.ok d2, by simp [rebuildStep, hres]⟩
  · by_cases hsz : d.resolution ≠ e.frond.windowResolution
    · rcases hres : resurrect (retireFrond d).1 e.frond with ⟨resE, ev2⟩
      rcases resE with ⟨r2, e2⟩ | d2
      · exact ⟨.error r2, by simp [rebuildStep, hsz, hres]⟩
      · exact ⟨.ok d2, by simp [rebuildStep, hsz, hres]⟩
    · exact ⟨.ok d, by simp [rebuildStep, hsz]⟩

theorem rebuildStep_live_matching (stem : StemData) (d : FrondData)
    (e : RendererEnv) (hmatch : d.resolution = e.frond.windowResolution) :
    rebuildStep ⟨some ⟨stem, .ok d⟩⟩ e = (⟨some ⟨stem, .ok d⟩⟩, .ok d, []) := by
  have hsz : ¬d.resolution ≠ e.frond.windowResolution := by
    simpa using hmatch
  simp [rebuildStep, hsz]

/-- Claim C1, counterexample: a sequence guard dropped after pushing
handles 1 then 2 destroys them in acquisition order [1, 2], not in reverse
acquisition order [2, 1] — the `(Vec<R>, C)` drop loop iterates the vector
front to back. -/
theorem C1_sequence_guard_order_counterexample :
    (SeqGuard.pushAll ⟨[]⟩ [1, 2]).dropTrace = [1, 2] ∧
    (SeqGuard.pushAll ⟨[]⟩ [1, 2]).dropTrace ≠ List.reverse [1, 2] := by
  decide

/-- Claim C1 (amended): dropping a guard without `take()` invokes the
destroy operation exactly once on the owned resource, and a sequence guard
dropped after k of N pushes destroys exactly those k pushed elements, in
acquisition (push) order — not reverse; `take()` returns the owned
resource(s) and no destroy operation is invoked for them. -/
theorem C1_guard_semantics_amended (g : Guarded) (hs : List Handle) :
    g.destroyTrace .dropped = [g.resource] ∧
    g.destroyTrace .taken = [] ∧
    g.take = (g.resource, []) ∧
    (SeqGuard.pushAll ⟨[]⟩ hs).dropTrace = hs ∧
    (SeqGuard.pushAll ⟨[]⟩ hs).take = (hs, []) := by
  refine ⟨rfl, rfl, rfl, ?_, ?_⟩
  · simp [SeqGuard.dropTrace, SeqGuard.pushAll_elems, seqGuardDropTrace_eq]
  · simp [SeqGuard.take, SeqGuard.pushAll_elems]

/-- Claim C2: in every run of `Image::new`, if any step after image
creation fails, every handle created by the preceding steps is destroyed
(in reverse acquisition order, so nothing leaks) before the error is
returned; failure at view creation destroys exactly the memory and the
image; and on success nothing is destroyed and the image, memory and view
(together with the requested format and resolution) are returned under one
guard keyed to the device. -/
theorem C2_image_new_cleanup (env : ImageNewEnv) (format : Nat)
    (extent : Nat × Nat × Nat) :
    ((imageNew env format extent).result = .vkErr ∨
        (imageNew env format extent).result = .selectErr →
      (imageNew env format extent).destroyed =
        (imageNew env format extent).created.reverse) ∧
    (∀ img mem : Handle,
      imageNew ⟨some img, true, some mem, true, none⟩ format extent =
        ⟨.vkErr, [img, mem], [mem, img]⟩) ∧
    (∀ img : ImageRec, (imageNew env format extent).result = .ok img →
      (imageNew env format extent).destroyed = [] ∧
      (imageNew env format extent).created =
        [img.image, img.memory, img.view] ∧
      img.format = format ∧ img.resolution = extent) := by
  obtain ⟨ih, mok, mh, bok, vh⟩ := env
  refine ⟨?_, ?_, ?_⟩
  · cases ih <;> cases mok <;> cases mh <;> cases bok <;> cases vh <;>
      simp [imageNew]
  · intro img mem
    simp [imageNew]
  · intro img hok
    cases ih <;> cases mok <;> cases mh <;> cases bok <;> cases vh <;>
      (simp_all [imageNew]; try (subst hok; simp))

/-- Claim C2, witness: a run failing at view creation destroys the memory
and the image, the reverse of their acquisition order. -/
theorem C2_image_new_cleanup_witness :
    (imageNew ⟨some 10, true, some 11, true, none⟩ 7 (5, 5, 1)).destroyed =
      (imageNew ⟨some 10, true, some 11, true, none⟩ 7 (5, 5, 1)).created.reverse :=
  (C2_image_new_cleanup ⟨some 10, true, some 11, true, none⟩ 7 (5, 5, 1)).1
    (Or.inl (by decide))

/-- Claim C3, counterexample: resurrecting a retired swapchain (handle 7)
in an environment where swapchain creation succeeds (handle 8) and view
creation then fails returns a `RetiredSwapchain` holding the newly created
handle 8, not the original handle 7 — the residue is not preserved
unchanged. -/
theorem C3_resurrect_counterexample :
    (resurrect ⟨1, 7⟩ envC3).1 = .error (⟨1, 8⟩, .vkErr) ∧
    (8 : Handle) ≠ 7 := by
  decide

/-- Claim C3 (amended): when `resurrect()` fails, the retired residue is
returned (sharing the same stem, so the state stays Retiring and the call
can be retried) with the error surfaced as a non-fatal value; the residue
holds the original swapchain handle when the failure precedes swapchain
creation (zero area, format selection, or the create call itself), and the
newly created replacement handle when a later step fails; in either case
the held handle — and the original handle — is never destroyed by the run,
provided the environment's view/image handles are fresh. -/
theorem C3_resurrect_failure_amended (r : RetiredSwapchain) (env : FrondEnv)
    (r2 : RetiredSwapchain) (err : FrondError)
    (hfail : (resurrect r env).1 = .error (r2, err))
    (hfreshOld : r.swapchain ∉ env.destroyable)
    (hfreshNew : ∀ hnew, env.newSwapchain = some hnew →
      hnew ∉ env.destroyable) :
    r2.stemId = r.stemId ∧
    ((env.windowResolution.1 = 0 ∨ env.windowResolution.2 = 0) ∨
        env.surfaceFormat = none ∨ env.surfaceFormat = some none ∨
        env.newSwapchain = none →
      r2.swapchain = r.swapchain) ∧
    (∀ hnew fmt, ¬(env.windowResolution.1 = 0 ∨ env.windowResolution.2 = 0) →
      env.surfaceFormat = some (some fmt) → env.newSwapchain = some hnew →
      r2.swapchain = hnew) ∧
    r2.swapchain ∉ (resurrect r env).2 ∧
    r.swapchain ∉ (resurrect r env).2 := by
  have hsub := new_with_swapchain_destroyed_subset r.stemId env r.swapchain
  rcases hres : (new_with_swapchain r.stemId env r.swapchain).result
    with e0 | d0
  case ok =>
    exfalso
    simp only [resurrect] at hfail
    rw [hres] at hfail
    simp at hfail
  case error =>
    have herr2 : ∀ d, (new_with_swapchain r.stemId env r.swapchain).result ≠ .ok d := by
      intro d hd
      rw [hres] at hd
      exact Except.noConfusion hd
    simp only [resurrect] at hfail
    rw [hres] at hfail
    simp only [Except.error.injEq, Prod.mk.injEq] at hfail
    obtain ⟨hr2, -⟩ := hfail
    subst hr2
    have hsnd : (resurrect r env).2 =
        (new_with_swapchain r.stemId env r.swapchain).destroyed := by
      simp only [resurrect]
      rw [hres]
    have hslot : (new_with_swapchain r.stemId env r.swapchain).slot = r.swapchain ∨
        ∃ hnew, env.newSwapchain = some hnew ∧
          (new_with_swapchain r.stemId env r.swapchain).slot = hnew := by
      by_cases hcase : (env.windowResolution.1 = 0 ∨ env.windowResolution.2 = 0) ∨
        env.surfaceFormat = none ∨ env.surfaceFormat = some none ∨
        env.newSwapchain = none
      · exact Or.inl (new_with_swapchain_slot_early r.stemId env r.swapchain hcase)
      · have hz : ¬(env.windowResolution.1 = 0 ∨ env.windowResolution.2 = 0) :=
          fun h => hcase (Or.inl h)
        have h1 : env.surfaceFormat ≠ none :=
          fun h => hcase (Or.inr (Or.inl h))
        have h2 : env.surfaceFormat ≠ some none :=
          fun h => hcase (Or.inr (Or.inr (Or.inl h)))
        have h3 : env.newSwapchain ≠ none :=
          fun h => hcase (Or.inr (Or.inr (Or.inr h)))
        rcases hsf : env.surfaceFormat with _ | osf
        · exact absurd hsf h1
        rcases osf with _ | fmt
        · exact absurd hsf h2
        rcases hns2 : env.newSwapchain with _ | hnew
        · exact absurd hns2 h3
        exact Or.inr ⟨hnew, rfl,
          new_with_swapchain_slot_late r.stemId env r.swapchain hnew fmt hz hsf
            hns2 herr2⟩
    refine ⟨rfl, ?_, ?_, ?_, ?_⟩
    · intro hcase
      exact new_with_swapchain_slot_early r.stemId env r.swapchain hcase
    · intro hnew fmt hz hsf hns
      exact new_with_swapchain_slot_late r.stemId env r.swapchain hnew fmt hz hsf
        hns herr2
    · rw [hsnd]
      intro hmem
      have hdest := hsub _ hmem
      rcases hslot with hold | ⟨hnew, hns2, hnewslot⟩
      · rw [hold] at hdest
        exact hfreshOld hdest
      · rw [hnewslot] at hdest
        exact hfreshNew hnew hns2 hdest
    · rw [hsnd]
      intro hmem
      exact hfreshOld (hsub _ hmem)

/-- Claim C3, witness: resurrecting retired swapchain 7 under a zero
drawable area fails, and handle 7 — still held by the returned residue —
is not destroyed. -/
theorem C3_resurrect_failure_amended_witness :
    (RetiredSwapchain.mk 1 7).swapchain = (RetiredSwapchain.mk 1 7).swapchain ∧
    (7 : Handle) ∉ (resurrect ⟨1, 7⟩ envZeroFrond).2 := by
  have h := C3_resurrect_failure_amended ⟨1, 7⟩ envZeroFrond ⟨1, 7⟩
    .noSurfaceArea (by decide) (by decide)
    (by intro hnew hcon; simp [envZeroFrond] at hcon)
  exact ⟨h.2.1 (Or.inl (by decide)), h.2.2.2.2⟩

/-- Claim C4, evaluated at the failing input: a fully successful
resurrection of retired handle 7 builds the replacement swapchain 8, yet
handle 7 appears in no destroy event — it is overwritten after being passed
as the create call's replace-target (which retires but does not free it),
so the claimed "destroyed exactly once in the guard chain" never happens
and the retired handle leaks. -/
theorem C4_retired_swapchain_leaked :
    ((resurrect ⟨1, 7⟩ envC4).1.map fun d => d.swapchain) = .ok 8 ∧
    (7 : Handle) ∉ (resurrect ⟨1, 7⟩ envC4).2 := by
  decide

/-- Claim C5: a zero drawable area makes `new_with_swapchain` fail
immediately with the distinguished no-surface-area error — before any
graphics-API call, destroying nothing and leaving the caller's swapchain
slot untouched — and any number of `draw()` calls in the Retiring state
while the area stays (0, 0) each return the skipped outcome `Ok(false)`,
keep the same single `RetiredSwapchain` alive, and emit no destroy or
create events (no double-destroy, no leak, no reallocation). -/
theorem C5_zero_area_protocol (stemId : Nat) (env : FrondEnv) (slot : Handle)
    (stem : StemData) (r : RetiredSwapchain) (envs : List RendererEnv)
    (hzero : env.windowResolution.1 = 0 ∨ env.windowResolution.2 = 0)
    (hall : ∀ e ∈ envs,
      e.frond.windowResolution.1 = 0 ∨ e.frond.windowResolution.2 = 0) :
    new_with_swapchain stemId env slot = ⟨.error .noSurfaceArea, slot, [], 0⟩ ∧
    drawLoop ⟨some ⟨stem, .error r⟩⟩ envs =
      (⟨some ⟨stem, .error r⟩⟩, envs.map (fun _ => Except.ok false), []) := by
  constructor
  · unfold new_with_swapchain
    rw [if_pos hzero]
  · exact drawLoop_zero_area stem r envs hall

/-- Claim C5, witness: with the drawable area (0, 0), construction fails
with no API call, and two successive draws in the Retiring state both skip
and leave the single retired swapchain 7 untouched. -/
theorem C5_zero_area_protocol_witness :
    new_with_swapchain 1 envZeroFrond 7 = ⟨.error .noSurfaceArea, 7, [], 0⟩ ∧
    drawLoop ⟨some ⟨stemA, .error ⟨1, 7⟩⟩⟩ [envZeroR, envZeroR2] =
      (⟨some ⟨stemA, .error ⟨1, 7⟩⟩⟩, [.ok false, .ok false], []) := by
  have h := C5_zero_area_protocol 1 envZeroFrond 7 stemA ⟨1, 7⟩
    [envZeroR, envZeroR2] (by decide) (by decide)
  exact ⟨h.1, by simpa using h.2⟩

/-- Claim C6, counterexample: with a first device exposing a
present-capable but no graphics-capable family and a second device exposing
both, selection returns the typed no-acceptable-device error even though an
enumerated device exposes both capabilities — refuting the "if and only
if". -/
theorem C6_selection_counterexample :
    create_device_and_queues
        [⟨[⟨false, true⟩]⟩, ⟨[⟨true, true⟩]⟩] = .error .noAcceptableDevice ∧
    ([⟨[⟨false, true⟩]⟩, ⟨[⟨true, true⟩]⟩] : List PhysicalDevice).any
        (fun d => d.families.any (fun f => f.graphics) &&
          d.families.any (fun f => f.present)) = true := by
  decide

/-- Claim C6 (amended): device selection stops at the first enumerated
device exposing a present-capable queue family; it succeeds iff that device
also exposes a graphics-capable family, pairing the first graphics-capable
with the first present-capable family, and fails with the typed
no-acceptable-device error when no device has a present-capable family or
when the first such device lacks a graphics-capable family — even if a
later device exposes both. -/
theorem C6_device_selection_amended (devs : List PhysicalDevice) :
    ((∀ d ∈ devs, d.families.any (fun f => f.present) = false) →
      create_device_and_queues devs = .error .noAcceptableDevice) ∧
    (∀ i d, devs.get? i = some d →
      d.families.any (fun f => f.present) = true →
      (∀ j dj, j < i → devs.get? j = some dj →
        dj.families.any (fun f => f.present) = false) →
      create_device_and_queues devs =
        match firstGraphicsFamily d with
        | some g => .ok (i, g, (firstPresentFamily d).getD 0)
        | none => .error .noAcceptableDevice) := by
  constructor
  · intro hall
    unfold create_device_and_queues select_physical_device_and_queue_families
    rw [selectPhysicalDeviceAux_none devs 0 hall]
  · intro i d hget hpres hmin
    unfold create_device_and_queues select_physical_device_and_queue_families
    rw [selectPhysicalDeviceAux_first_present devs 0 i d hget hpres hmin]
    rcases hg : firstGraphicsFamily d with _ | g
    · simp [hg]
    · simp [hg]

/-- Claim C6, witness: the first device is graphics-only (no
present-capable family), so selection moves on and picks the second device,
whose single family serves both roles. -/
theorem C6_device_selection_amended_witness :
    create_device_and_queues [⟨[⟨true, false⟩]⟩, ⟨[⟨true, true⟩]⟩] =
      .ok (1, 0, 0) := by
  have h := (C6_device_selection_amended
      [⟨[⟨true, false⟩]⟩, ⟨[⟨true, true⟩]⟩]).2 1 ⟨[⟨true, true⟩]⟩
    (by decide) (by decide) ?hmin
  · rw [h]
    decide
  case hmin =>
    intro j dj hj hget
    have hj0 : j = 0 := by omega
    subst hj0
    simp only [List.get?] at hget
    cases hget
    decide

/-- Claim C7: `select_memory_type` is pure and deterministic; when it
returns an index, that index is the first acceptable one (bit set in the
requirements' type mask and property flags a superset of the required
flags); and it returns none iff no memory type in the table is
acceptable. -/
theorem C7_select_memory_type_spec (props : MemoryProperties)
    (reqs : MemoryRequirements) (flags : Nat) :
    (select_memory_type props reqs flags = select_memory_type props reqs flags) ∧
    (∀ i, select_memory_type props reqs flags = some i →
      acceptableMemoryType props reqs flags i ∧
      ∀ j, j < i → ¬acceptableMemoryType props reqs flags j) ∧
    (select_memory_type props reqs flags = none ↔
      ∀ i, ¬acceptableMemoryType props reqs flags i) := by
  refine ⟨rfl, ?_, ?_⟩
  · intro i h
    obtain ⟨-, ⟨mt, hget, hbit, hfl⟩, hmin⟩ :=
      selectMemoryTypeFrom_some reqs.memoryTypeBits flags props.memoryTypes 0 i h
    refine ⟨⟨mt, by simpa using hget, hbit, hfl⟩, ?_⟩
    intro j hj hacc
    obtain ⟨mtj, hgj, hbj, hfj⟩ := hacc
    exact hmin j mtj (by omega) hgj ⟨by simpa using hbj, hfj⟩
  · rw [select_memory_type, selectMemoryTypeFrom_none_iff]
    constructor
    · intro hall i hacc
      obtain ⟨mt, hget, hbit, hfl⟩ := hacc
      exact hall i mt hget ⟨by simpa using hbit, hfl⟩
    · intro hall j mt hget hcontra
      exact hall j ⟨mt, hget, by simpa using hcontra.1, hcontra.2⟩

/-- Claim C7, witness: in a two-entry table where only bit 1 is set in the
type mask, index 1 (flags 3 ⊇ 1) is selected, acceptable, and index 0 is
not acceptable. -/
theorem C7_select_memory_type_spec_witness :
    acceptableMemoryType ⟨[⟨0⟩, ⟨3⟩]⟩ ⟨16, 2⟩ 1 1 ∧
    ¬acceptableMemoryType ⟨[⟨0⟩, ⟨3⟩]⟩ ⟨16, 2⟩ 1 0 := by
  have h := (C7_select_memory_type_spec ⟨[⟨0⟩, ⟨3⟩]⟩ ⟨16, 2⟩ 1).2.1 1 (by decide)
  exact ⟨h.1, h.2 0 (by decide)⟩

/-- Claim C8: the distinguished device-lost result from a frame's draw
drops both the RenderTargetSet and the DeviceContext (their teardown
destroys each owned handle exactly once) and reverts the state to NoDevice;
the next `draw()` rebuilds a fresh DeviceContext and RenderTargetSet from
the still-valid PresentationContext; and device loss is the only condition
on which `draw()` discards the DeviceContext. -/
theorem C8_device_lost_recovery :
    (∀ (stem : StemData) (d : FrondData) (e : RendererEnv),
      d.resolution = e.frond.windowResolution →
      e.drawAttempt = .deviceLost →
      drawStep ⟨some ⟨stem, .ok d⟩⟩ e =
        (⟨none⟩, .error .vkDeviceLost,
          frondDropTrace d ++ stemDropTrace stem)) ∧
    (∀ (s2 : StemData) (d2 : FrondData) (ev : List Handle) (e2 : RendererEnv),
      e2.newStem = some s2 →
      sharedFrondNew s2.stemId e2.frond = (.ok d2, ev) →
      e2.drawAttempt = .presented false →
      drawStep ⟨none⟩ e2 = (⟨some ⟨s2, .ok d2⟩⟩, .ok true, ev)) ∧
    (∀ (saf : StemAndFrond) (e : RendererEnv),
      (drawStep ⟨some saf⟩ e).2.1 ≠ .error .vkDeviceLost →
      ∃ f2, (drawStep ⟨some saf⟩ e).1 = ⟨some ⟨saf.stem, f2⟩⟩) := by
  refine ⟨?_, ?_, ?_⟩
  · intro stem d e hmatch hlost
    have hreb := rebuildStep_live_matching stem d e hmatch
    simp [drawStep, hreb, hlost]
  · intro s2 d2 ev e2 hstem hfr hatt
    have hreb : rebuildStep ⟨none⟩ e2 = (⟨some ⟨s2, .ok d2⟩⟩, .ok d2, ev) := by
      simp [rebuildStep, hstem, hfr]
    simp [drawStep, hreb, hatt]
  · intro saf e hne
    obtain ⟨stem, f⟩ := saf
    obtain ⟨f2, hf2⟩ := rebuildStep_preserves_stem stem f e
    rcases hreb : rebuildStep ⟨some ⟨stem, f⟩⟩ e with ⟨st2, res, ev⟩
    have hst2 : st2 = ⟨some ⟨stem, f2⟩⟩ := by
      rw [hreb] at hf2
      exact hf2
    subst hst2
    rcases res with err | dd
    · rcases err with _ | _ | _ | fe
      · exfalso
        apply hne
        simp [drawStep, hreb]
      · exact ⟨f2, by simp [drawStep, hreb]⟩
      · exact ⟨f2, by simp [drawStep, hreb]⟩
      · rcases fe with _ | _ | _ | _
        · exact ⟨f2, by simp [drawStep, hreb]⟩
        · exact ⟨f2, by simp [drawStep, hreb]⟩
        · exact ⟨f2, by simp [drawStep, hreb]⟩
        · exact ⟨f2, by simp [drawStep, hreb]⟩
    · rcases hatt : e.drawAttempt with sub | _ | _
      · exact ⟨f2, by simp [drawStep, hreb, hatt]⟩
      · exfalso
        apply hne
        simp [drawStep, hreb, hatt]
      · exact ⟨f2, by simp [drawStep, hreb, hatt]⟩

/-- Claim C8, witness: device loss in a live state drops frond and stem
(each handle destroyed exactly once — the combined trace has no
duplicates), and the next draw rebuilds a fresh stem and frond from scratch
with no event touching the old handles. -/
theorem C8_device_lost_recovery_witness :
    drawStep ⟨some ⟨stemA, .ok frondA⟩⟩ envLostA =
      (⟨none⟩, .error .vkDeviceLost,
        frondDropTrace frondA ++ stemDropTrace stemA) ∧
    drawStep ⟨none⟩ envFreshB = (⟨some ⟨stemB, .ok frondB⟩⟩, .ok true, []) ∧
    (frondDropTrace frondA ++ stemDropTrace stemA).Nodup := by
  refine ⟨C8_device_lost_recovery.1 stemA frondA envLostA (by decide) (by decide),
    C8_device_lost_recovery.2.1 stemB frondB [] envFreshB (by decide)
      (by decide) (by decide), by decide⟩

/-- Claim C9, counterexample: a frame that presents with the suboptimal
hint returns `Ok(false)` — the same observable value as the skipped
outcome — although the drawable area is (800, 600) and the frame was
presented, refuting "skipped is returned exactly when there is no surface
area". -/
theorem C9_tristate_counterexample :
    (drawStep ⟨some ⟨stemA, .ok frondA⟩⟩ envSubA).2.1 = .ok false ∧
    envSubA.frond.windowResolution = (800, 600) ∧
    envSubA.drawAttempt = .presented true := by
  decide

/-- Claim C9 (amended): `draw()` returns `Ok(true)` when the frame
presented optimally, `Ok(false)` both when rebuilding skipped for lack of
surface area and when the frame presented with a suboptimal acquire/present
hint (suboptimal is treated as success, not error), and an error value
otherwise — so callers can distinguish errors from non-errors, but
`Ok(false)` conflates "skipped" with "presented suboptimally". -/
theorem C9_draw_outcomes_amended (stem : StemData) (d : FrondData)
    (r : RetiredSwapchain) (e e2 : RendererEnv)
    (hmatch : d.resolution = e.frond.windowResolution)
    (hz : e2.frond.windowResolution.1 = 0 ∨ e2.frond.windowResolution.2 = 0) :
    (drawStep ⟨some ⟨stem, .ok d⟩⟩ e).2.1 =
      (match e.drawAttempt with
        | .presented sub => .ok (!sub)
        | .deviceLost => .error .vkDeviceLost
        | .otherVkErr => .error .vkOther) ∧
    (drawStep ⟨some ⟨stem, .error r⟩⟩ e2).2.1 = .ok false := by
  constructor
  · have hreb := rebuildStep_live_matching stem d e hmatch
    rcases hatt : e.drawAttempt with sub | _ | _ <;> simp [drawStep, hreb, hatt]
  · rw [drawStep_zero_area stem r e2 hz]

/-- Claim C9, witness: an optimal present returns `Ok(true)`; a zero-area
frame in the Retiring state returns the skipped `Ok(false)`. -/
theorem C9_draw_outcomes_amended_witness :
    (drawStep ⟨some ⟨stemA, .ok frondA⟩⟩ envOptA).2.1 = .ok true ∧
    (drawStep ⟨some ⟨stemA, .error ⟨1, 7⟩⟩⟩ envZeroR).2.1 = .ok false := by
  have h := C9_draw_outcomes_amended stemA frondA ⟨1, 7⟩ envOptA envZeroR
    (by decide) (by decide)
  exact ⟨by simpa using h.1, h.2⟩

theorem sharedFrondRefsAfterPassDrop_eq_one_iff (s : FrondSharing) :
    sharedFrondRefsAfterPassDrop s = 1 ↔
      s.geometryExt = 0 ∧ s.lightingExt = 0 ∧ s.tonemappingExt = 0 ∧
        s.sharedExt = 0 := by
  obtain ⟨g, l, t, sh⟩ := s
  unfold sharedFrondRefsAfterPassDrop
  by_cases hg : g = 0 <;> by_cases hl : l = 0 <;> by_cases ht : t = 0 <;>
    simp [hg, hl, ht]

/-- Claim C10, evaluated at the failing input (no external references):
`take_swapchain` completes and yields the retired residue when the
orchestrator is the sole holder — and panics exactly when some other party
still holds a pass frond or the shared frond — but the cleanup path of a
failed resurrection panics for every sharing configuration, including the
sole-holder one, because its `Arc::try_unwrap` runs on a fresh clone while
the original reference is still captured. -/
theorem C10_cleanup_panics_despite_sole_reference :
    takeSwapchainOutcome ⟨0, 0, 0, 0⟩ frondA = .retired ⟨1, 8⟩ ∧
    resurrectCleanupOutcome ⟨0, 0, 0, 0⟩ frondA = .panicked ∧
    (∀ s : FrondSharing, resurrectCleanupOutcome s frondA = .panicked) ∧
    (∀ s : FrondSharing,
      takeSwapchainOutcome s frondA = .retired ⟨1, 8⟩ ↔
        s.geometryExt = 0 ∧ s.lightingExt = 0 ∧ s.tonemappingExt = 0 ∧
          s.sharedExt = 0) := by
  refine ⟨by decide, by decide, ?_, ?_⟩
  · intro s
    unfold resurrectCleanupOutcome
    rw [if_neg (by omega)]
  · intro s
    unfold takeSwapchainOutcome
    by_cases h1 : sharedFrondRefsAfterPassDrop s = 1
    · rw [if_pos h1]
      constructor
      · intro _
        exact (sharedFrondRefsAfterPassDrop_eq_one_iff s).mp h1
      · intro _
        decide
    · rw [if_neg h1]
      constructor
      · intro hcon
        exact absurd hcon (by decide)
      · intro hall
        exact absurd ((sharedFrondRefsAfterPassDrop_eq_one_iff s).mpr hall) h1

end Neritigen
